import Mathlib

/-!
Verification of the GraphQL-over-provider gateway: a shallow embedding of the
provider client adapter (chat, completion, list-models), the resolver layer and
the edge handler, with theorems checking the documented mapping, defaulting,
error-wrapping and CORS behaviour.
-/

namespace AgentWorks

/-! ## JavaScript value semantics used by the source

The source uses `x || d` to substitute defaults and `!x` to test configuration
presence. In JavaScript `||` yields the right operand exactly when the left is
falsy: for optional strings that is `undefined` or `""`, for optional numbers
`undefined`, `0` (or NaN, which the rational embedding of the numeric fields
cannot carry and no claim involves). These helpers make that coalescing
explicit. -/

/-- JavaScript `x || d` on an optional string: `d` when `x` is `undefined` or
the empty string (both falsy), otherwise the string itself. -/
def jsOrString (x : Option String) (d : String) : String :=
  match x with
  | none => d
  | some s => if s = "" then d else s

/-- JavaScript `x || d` on an optional number (embedded as a rational): `d`
when `x` is `undefined` or `0` (falsy), otherwise the number itself. -/
def jsOrRat (x : Option Rat) (d : Rat) : Rat :=
  match x with
  | none => d
  | some v => if v = 0 then d else v

/-- JavaScript `x || d` on an optional integer: `d` when `x` is `undefined`
or `0` (falsy), otherwise the integer itself. -/
def jsOrInt (x : Option Int) (d : Int) : Int :=
  match x with
  | none => d
  | some v => if v = 0 then d else v

/-- JavaScript falsiness `!x` of an optional string: true when `undefined`
or the empty string. -/
def jsFalsyString : Option String → Bool
  | none => true
  | some s => s == ""

/-- A value thrown in JavaScript, as the catch blocks discriminate it:
either an `Error` instance carrying a message, or any other thrown value. -/
inductive JSThrown where
  | errObj (message : String)
  | nonError
  deriving DecidableEq, Repr

/-- The catch blocks derive a message via
`error instanceof Error ? error.message : 'Unknown error'`. -/
def thrownMessage : JSThrown → String
  | JSThrown.errObj m => m
  | JSThrown.nonError => "Unknown error"

/-! ## Data model (src/src/types/index.ts) -/

/-- `Env`: the worker's environment bindings. Both are modelled optional since
a deployment may leave either unbound at runtime (`ENVIRONMENT?` is optional
in the interface, and the credential check guards against an unbound key). -/
structure Env where
  OPENAI_API_KEY : Option String
  ENVIRONMENT : Option String
  deriving DecidableEq, Repr

/-- `ChatMessage`: one message of a conversation. -/
structure ChatMessage where
  role : String
  content : String
  deriving DecidableEq, Repr

/-- `ChatInput`: arguments of the chat mutation. -/
structure ChatInput where
  messages : List ChatMessage
  model : Option String
  temperature : Option Rat
  maxTokens : Option Int
  deriving DecidableEq, Repr

/-- `CompletionInput`: arguments of the completion mutation. -/
structure CompletionInput where
  prompt : String
  model : Option String
  maxTokens : Option Int
  temperature : Option Rat
  deriving DecidableEq, Repr

/-- `Usage`: token accounting reported back to the caller. -/
structure Usage where
  promptTokens : Int
  completionTokens : Int
  totalTokens : Int
  deriving DecidableEq, Repr

/-- `ChatResponse`: result of the chat operation. -/
structure ChatResponse where
  message : ChatMessage
  model : String
  usage : Option Usage
  deriving DecidableEq, Repr

/-- `CompletionResponse`: result of the completion operation. -/
structure CompletionResponse where
  text : String
  model : String
  usage : Option Usage
  deriving DecidableEq, Repr

/-- `Model`: one entry of the models listing. -/
structure Model where
  id : String
  object : String
  created : Int
  ownedBy : String
  deriving DecidableEq, Repr

/-! ## Provider wire shapes

The shapes the adapter reads off the provider client's responses, with
exactly the fields the source touches; a field the provider may omit (or set
to null, which optional chaining and `||` treat alike here) is an `Option`. -/

/-- Usage block of a provider response (`prompt_tokens` etc.). -/
structure ProviderUsage where
  prompt_tokens : Int
  completion_tokens : Int
  total_tokens : Int
  deriving DecidableEq, Repr

/-- The message inside a provider chat choice; `content` may be null. -/
structure ProviderChatMessage where
  role : String
  content : Option String
  deriving DecidableEq, Repr

/-- One choice of a provider chat response; `message` may be absent. -/
structure ProviderChatChoice where
  message : Option ProviderChatMessage
  deriving DecidableEq, Repr

/-- A provider chat-completions response. -/
structure ProviderChatResponse where
  choices : List ProviderChatChoice
  model : String
  usage : Option ProviderUsage
  deriving DecidableEq, Repr

/-- One choice of a provider text-completion response; `text` may be absent
(`undefined`), which the source distinguishes from the empty string. -/
structure ProviderCompletionChoice where
  text : Option String
  deriving DecidableEq, Repr

/-- A provider text-completions response. -/
structure ProviderCompletionResponse where
  choices : List ProviderCompletionChoice
  model : String
  usage : Option ProviderUsage
  deriving DecidableEq, Repr

/-- The wire request `client.chat.completions.create` is invoked with. -/
structure ProviderChatRequest where
  model : String
  messages : List ChatMessage
  temperature : Rat
  max_tokens : Int
  deriving DecidableEq, Repr

/-- The wire request `client.completions.create` is invoked with. -/
structure ProviderCompletionRequest where
  model : String
  prompt : String
  max_tokens : Int
  temperature : Rat
  deriving DecidableEq, Repr

/-- One entry of the provider's models listing. -/
structure ProviderModel where
  id : String
  object : String
  created : Int
  owned_by : String
  deriving DecidableEq, Repr

/-- The provider's models listing response (`response.data`). -/
structure ProviderModelsResponse where
  data : List ProviderModel
  deriving DecidableEq, Repr

/-! ## Provider client adapter (src/unnamed/part_000, OpenAIService) -/

/-- The adapter instance: holds the credential handed to the provider client. -/
structure OpenAIService where
  apiKey : String
  deriving DecidableEq, Repr

/-- The wire request `OpenAIService.chat` sends: defaults substituted by
JavaScript `||` coalescing (`input.model || 'gpt-3.5-turbo'`,
`input.temperature || 0.7`, `input.maxTokens || 1000`). -/
def chatRequestOf (input : ChatInput) : ProviderChatRequest :=
  { model := jsOrString input.model "gpt-3.5-turbo"
    messages := input.messages
    temperature := jsOrRat input.temperature 0.7
    max_tokens := jsOrInt input.maxTokens 1000 }

/-- The wire request `OpenAIService.completion` sends: defaults substituted by
JavaScript `||` coalescing (`input.model || 'gpt-3.5-turbo-instruct'`,
`input.maxTokens || 1000`, `input.temperature || 0.7`). -/
def completionRequestOf (input : CompletionInput) : ProviderCompletionRequest :=
  { model := jsOrString input.model "gpt-3.5-turbo-instruct"
    prompt := input.prompt
    max_tokens := jsOrInt input.maxTokens 1000
    temperature := jsOrRat input.temperature 0.7 }

/-- How both operations map a provider usage block into `Usage`: a pure field
rename. Stated for the theorems; the operation definitions inline it exactly
as the source repeats it. -/
def usageOf (u : ProviderUsage) : Usage :=
  { promptTokens := u.prompt_tokens
    completionTokens := u.completion_tokens
    totalTokens := u.total_tokens }

/-- `OpenAIService.chat`: the single provider call is the oracle `call`,
invoked once on the defaulted wire request. Inside the `try` block the
adapter reads `response.choices[0]?.message`; when that is `undefined` it
throws `Error('No message in response')`. The `catch` block wraps every
failure of the `try` block — the provider call's and the locally thrown one
alike — into `Error('Failed to generate chat response: ' + message)`. -/
def OpenAIService.chat (input : ChatInput)
    (call : ProviderChatRequest → Except JSThrown ProviderChatResponse) :
    Except JSThrown ChatResponse :=
  let body : Except JSThrown ChatResponse :=
    match call (chatRequestOf input) with
    | Except.error e => Except.error e
    | Except.ok response =>
      match (response.choices.head?).bind (fun c => c.message) with
      | none => Except.error (JSThrown.errObj "No message in response")
      | some message =>
        Except.ok
          { message := { role := message.role, content := jsOrString message.content "" }
            model := response.model
            usage := response.usage.map (fun u =>
              { promptTokens := u.prompt_tokens
                completionTokens := u.completion_tokens
                totalTokens := u.total_tokens }) }
  match body with
  | Except.ok r => Except.ok r
  | Except.error e =>
    Except.error (JSThrown.errObj ("Failed to generate chat response: " ++ thrownMessage e))

/-- `OpenAIService.completion`: same discipline as chat. The adapter reads
`response.choices[0]?.text` and throws `Error('No text in response')` only
when that is strictly `undefined` (`text === undefined`), so a present empty
string passes through; the `catch` block wraps every failure with the
completion prefix. -/
def OpenAIService.completion (input : CompletionInput)
    (call : ProviderCompletionRequest → Except JSThrown ProviderCompletionResponse) :
    Except JSThrown CompletionResponse :=
  let body : Except JSThrown CompletionResponse :=
    match call (completionRequestOf input) with
    | Except.error e => Except.error e
    | Except.ok response =>
      match (response.choices.head?).bind (fun c => c.text) with
      | none => Except.error (JSThrown.errObj "No text in response")
      | some text =>
        Except.ok
          { text := text
            model := response.model
            usage := response.usage.map (fun u =>
              { promptTokens := u.prompt_tokens
                completionTokens := u.completion_tokens
                totalTokens := u.total_tokens }) }
  match body with
  | Except.ok r => Except.ok r
  | Except.error e =>
    Except.error (JSThrown.errObj ("Failed to generate completion: " ++ thrownMessage e))

/-- `OpenAIService.getModels`: lists the provider's models (one call to the
oracle) and renames each entry's fields; any failure is wrapped with the
models prefix. -/
def OpenAIService.getModels
    (call : Unit → Except JSThrown ProviderModelsResponse) :
    Except JSThrown (List Model) :=
  match call () with
  | Except.error e =>
    Except.error (JSThrown.errObj ("Failed to fetch models: " ++ thrownMessage e))
  | Except.ok response =>
    Except.ok (response.data.map (fun m =>
      { id := m.id, object := m.object, created := m.created, ownedBy := m.owned_by }))

/-- `createOpenAIService`: throws `Error('OPENAI_API_KEY is not configured')`
when `!env.OPENAI_API_KEY` (the key unbound or the empty string), otherwise
constructs the adapter over the key. -/
def createOpenAIService (env : Env) : Except JSThrown OpenAIService :=
  if jsFalsyString env.OPENAI_API_KEY then
    Except.error (JSThrown.errObj "OPENAI_API_KEY is not configured")
  else
    Except.ok { apiKey := (env.OPENAI_API_KEY).getD "" }

/-! ## Resolvers (src/src/schema/resolvers.ts) -/

/-- `resolvers.Query.health`: takes no arguments at all — in particular no
context and no provider handle, so it cannot reach the network — and returns
the literal `'OK'`. -/
def resolvers.Query.health : Unit → String := fun _ => "OK"

/-! ## Edge handler (src/src/index.ts) -/

/-- An inbound HTTP request, with the one field the handler branches on. -/
structure HttpRequest where
  method : String
  deriving DecidableEq, Repr

/-- A response body: absent (`null`), the JSON serialization of the handler's
two-field error object, or whatever body the GraphQL layer produced. -/
inductive HttpBody where
  | nullBody
  | jsonObject (error : String) (message : String)
  | fromYoga (payload : String)
  deriving DecidableEq, Repr

/-- An HTTP response: status, body, and ordered header list. -/
structure HttpResponse where
  status : Nat
  body : HttpBody
  headers : List (String × String)
  deriving DecidableEq, Repr

/-- The three CORS headers the handler declares. -/
def corsHeaders : List (String × String) :=
  [("Access-Control-Allow-Origin", "*"),
   ("Access-Control-Allow-Methods", "GET, POST, OPTIONS"),
   ("Access-Control-Allow-Headers", "Content-Type, Authorization")]

/-- `Headers.set`: replaces an existing header with the name, appends
otherwise. -/
def setHeader (hs : List (String × String)) (k v : String) : List (String × String) :=
  if hs.any (fun p => p.fst = k) then
    hs.map (fun p => if p.fst = k then (k, v) else p)
  else
    hs ++ [(k, v)]

/-- The GraphiQL toggle passed to `createYoga`:
`env.ENVIRONMENT === 'development' || !env.ENVIRONMENT`. -/
def graphiqlEnabled (env : Env) : Bool :=
  (env.ENVIRONMENT == some "development") || jsFalsyString env.ENVIRONMENT

/-- The configuration the handler builds for the GraphQL layer; only the
GraphiQL toggle varies with the environment. -/
structure YogaConfig where
  graphiql : Bool
  deriving DecidableEq, Repr

/-- The `fetch` handler. `yoga` is the external GraphQL layer, an oracle from
the configuration and the request to a response. Preflight short-circuits
before anything else; otherwise the adapter is constructed (its failure
becomes the 500 JSON response, CORS headers attached after the content type),
and on success the GraphQL layer's response is returned with each CORS header
set onto its headers. -/
def workerFetch (req : HttpRequest) (env : Env)
    (yoga : YogaConfig → HttpRequest → HttpResponse) : HttpResponse :=
  if req.method = "OPTIONS" then
    { status := 204, body := HttpBody.nullBody, headers := corsHeaders }
  else
    match createOpenAIService env with
    | Except.error e =>
      { status := 500
        body := HttpBody.jsonObject "Internal Server Error" (thrownMessage e)
        headers := ("Content-Type", "application/json") :: corsHeaders }
    | Except.ok _ =>
      let resp := yoga { graphiql := graphiqlEnabled env } req
      { resp with
        headers := corsHeaders.foldl (fun hs kv => setHeader hs kv.fst kv.snd) resp.headers }

/-- Modelled from the spec: the GraphQL execution engine is an external
library absent from the repository's sources ("the GraphQL execution engine
itself … treated as a trusted external library"); per the spec, resolver
failures "propagate to the protocol execution layer, which packages them into
the response's error list alongside a null for the failed field". A resolver
outcome therefore yields the field's data (null on failure) paired with the
response's error list. -/
def graphQLFieldResult {α : Type} (r : Except JSThrown α) : Option α × List String :=
  match r with
  | Except.ok v => (some v, [])
  | Except.error e => (none, [thrownMessage e])

/-! ## Concrete fixtures for counterexamples and witnesses -/

/-- A minimal chat input: one user message, every optional field absent. -/
def c1Input : ChatInput :=
  { messages := [{ role := "user", content := "Hello" }]
    model := none, temperature := none, maxTokens := none }

/-- A provider chat response with an empty choices list. -/
def c1Resp : ProviderChatResponse :=
  { choices := [], model := "gpt-3.5-turbo", usage := none }

/-- A provider call that answers every chat request with `c1Resp`. -/
def c1Call : ProviderChatRequest → Except JSThrown ProviderChatResponse :=
  fun _ => Except.ok c1Resp

/-! ## Theorems -/

/-- C1 (counterexample): with an empty choices list the chat operation does
not surface the bare message "No message in response". The local throw sits
inside the `try` block, so the `catch` re-wraps it: the surfaced error's
message carries the "Failed to generate chat response: " prefix, and the two
message strings differ. -/
theorem chat_no_message_error_is_wrapped :
    OpenAIService.chat c1Input c1Call
      = Except.error
          (JSThrown.errObj "Failed to generate chat response: No message in response")
    ∧ "Failed to generate chat response: No message in response"
      ≠ "No message in response" := by
  exact ⟨rfl, by decide⟩

/-- C1 (amended): when the provider chat response has an empty choices list
or a first choice without a message field, the operation fails with an error
whose message is exactly "Failed to generate chat response: No message in
response" (the structurally-incomplete-response error is thrown inside the
`try` block and wrapped by the operation prefix like any other failure), and
the GraphQL response carries a null chat field alongside a populated errors
list. -/
theorem chat_missing_message_fails (input : ChatInput)
    (call : ProviderChatRequest → Except JSThrown ProviderChatResponse)
    (resp : ProviderChatResponse)
    (hcall : call (chatRequestOf input) = Except.ok resp)
    (hmiss : resp.choices = [] ∨ ∃ c cs, resp.choices = c :: cs ∧ c.message = none) :
    OpenAIService.chat input call
      = Except.error
          (JSThrown.errObj "Failed to generate chat response: No message in response")
    ∧ (graphQLFieldResult (OpenAIService.chat input call)).fst = none
    ∧ (graphQLFieldResult (OpenAIService.chat input call)).snd ≠ [] := by
  have hnone : (resp.choices.head?).bind (fun c => c.message) = none := by
    rcases hmiss with h | ⟨c, cs, h, hm⟩
    · simp [h]
    · simp [h, hm]
  have hres : OpenAIService.chat input call
      = Except.error
          (JSThrown.errObj "Failed to generate chat response: No message in response") := by
    simp [OpenAIService.chat, hcall, hnone, thrownMessage]
  exact ⟨hres, by simp [hres, graphQLFieldResult], by simp [hres, graphQLFieldResult]⟩

/-- C1 (witness): the amended theorem applied to the concrete empty-choices
fixture. -/
theorem chat_missing_message_fails_witness :
    OpenAIService.chat c1Input c1Call
      = Except.error
          (JSThrown.errObj "Failed to generate chat response: No message in response") :=
  (chat_missing_message_fails c1Input c1Call c1Resp rfl (Or.inl rfl)).1

/-- C2: absent optional fields are replaced by the documented defaults on the
wire request — model "gpt-3.5-turbo" for chat and "gpt-3.5-turbo-instruct"
for completion, temperature 0.7 and max_tokens 1000 for both. -/
theorem request_defaults (ci : ChatInput) (po : CompletionInput) :
    (ci.model = none → (chatRequestOf ci).model = "gpt-3.5-turbo")
    ∧ (po.model = none → (completionRequestOf po).model = "gpt-3.5-turbo-instruct")
    ∧ (ci.temperature = none → (chatRequestOf ci).temperature = 0.7)
    ∧ (po.temperature = none → (completionRequestOf po).temperature = 0.7)
    ∧ (ci.maxTokens = none → (chatRequestOf ci).max_tokens = 1000)
    ∧ (po.maxTokens = none → (completionRequestOf po).max_tokens = 1000) := by
  refine ⟨?_, ?_, ?_, ?_, ?_, ?_⟩ <;> intro h <;>
    simp [chatRequestOf, completionRequestOf, jsOrString, jsOrRat, jsOrInt, h]

/-- C3: a temperature explicitly given as 0 is falsy for JavaScript `||`, so
the default substitution replaces it and both operations send 0.7 upstream,
not 0. -/
theorem temperature_zero_replaced (ci : ChatInput) (po : CompletionInput)
    (ht : ci.temperature = some 0) (hct : po.temperature = some 0) :
    (chatRequestOf ci).temperature = 0.7
    ∧ (completionRequestOf po).temperature = 0.7
    ∧ (chatRequestOf ci).temperature ≠ 0
    ∧ (completionRequestOf po).temperature ≠ 0 := by
  have h1 : (chatRequestOf ci).temperature = 0.7 := by
    simp [chatRequestOf, jsOrRat, ht]
  have h2 : (completionRequestOf po).temperature = 0.7 := by
    simp [completionRequestOf, jsOrRat, hct]
  have h07 : (0.7 : Rat) ≠ 0 := by norm_num
  exact ⟨h1, h2, by rw [h1]; exact h07, by rw [h2]; exact h07⟩

/-- C3 (fixture): a chat input whose temperature is explicitly 0. -/
def c3ChatInput : ChatInput :=
  { messages := [{ role := "user", content := "Hello" }]
    model := none, temperature := some 0, maxTokens := none }

/-- C3 (fixture): a completion input whose temperature is explicitly 0. -/
def c3CompletionInput : CompletionInput :=
  { prompt := "Hello", model := none, maxTokens := none, temperature := some 0 }

/-- C3 (witness): the theorem applied to inputs with temperature 0. -/
theorem temperature_zero_replaced_witness :
    (chatRequestOf c3ChatInput).temperature = 0.7
    ∧ (completionRequestOf c3CompletionInput).temperature = 0.7
    ∧ (chatRequestOf c3ChatInput).temperature ≠ 0
    ∧ (completionRequestOf c3CompletionInput).temperature ≠ 0 :=
  temperature_zero_replaced c3ChatInput c3CompletionInput rfl rfl

/-- C4: the completion operation succeeds whenever the first choice carries a
present text — in particular the empty string — returning that text verbatim,
and fails exactly when `choices[0]?.text` is wholly absent (`undefined`):
present-but-empty and absent are distinct. -/
theorem completion_text_presence (input : CompletionInput)
    (call : ProviderCompletionRequest → Except JSThrown ProviderCompletionResponse)
    (resp : ProviderCompletionResponse)
    (hcall : call (completionRequestOf input) = Except.ok resp) :
    (∀ t : String, (resp.choices.head?).bind (fun c => c.text) = some t →
      ∃ r : CompletionResponse,
        OpenAIService.completion input call = Except.ok r ∧ r.text = t)
    ∧ ((resp.choices.head?).bind (fun c => c.text) = none →
      OpenAIService.completion input call
        = Except.error (JSThrown.errObj "Failed to generate completion: No text in response")) := by
  constructor
  · intro t h
    refine ⟨{ text := t
              model := resp.model
              usage := resp.usage.map (fun u =>
                { promptTokens := u.prompt_tokens
                  completionTokens := u.completion_tokens
                  totalTokens := u.total_tokens }) }, ?_, rfl⟩
    simp [OpenAIService.completion, hcall, h]
  · intro h
    simp [OpenAIService.completion, hcall, h, thrownMessage]

/-- C4 (fixture): a minimal completion input. -/
def c4Input : CompletionInput :=
  { prompt := "Hello", model := none, maxTokens := none, temperature := none }

/-- C4 (fixture): a provider response whose first choice holds the empty
string as its text. -/
def c4Resp : ProviderCompletionResponse :=
  { choices := [{ text := some "" }], model := "gpt-3.5-turbo-instruct", usage := none }

/-- C4 (fixture): a provider call answering every completion request with
`c4Resp`. -/
def c4Call : ProviderCompletionRequest → Except JSThrown ProviderCompletionResponse :=
  fun _ => Except.ok c4Resp

/-- C4 (witness): on a provider response carrying the empty string, the
operation succeeds with text `""`. -/
theorem completion_text_presence_witness :
    ∃ r : CompletionResponse,
      OpenAIService.completion c4Input c4Call = Except.ok r ∧ r.text = "" :=
  (completion_text_presence c4Input c4Call c4Resp rfl).1 "" rfl

/-- C5: every provider-call failure is re-thrown wrapped with the prefix of
the failing operation followed by the underlying message — "Unknown error"
standing in when the thrown value is not an `Error` instance — and each
operation consults its single provider call exactly once, so no retry exists
to attempt. -/
theorem provider_failures_wrapped (input : ChatInput) (cinput : CompletionInput)
    (e1 e2 e3 : JSThrown)
    (chatCall : ProviderChatRequest → Except JSThrown ProviderChatResponse)
    (compCall : ProviderCompletionRequest → Except JSThrown ProviderCompletionResponse)
    (modelsCall : Unit → Except JSThrown ProviderModelsResponse)
    (h1 : chatCall (chatRequestOf input) = Except.error e1)
    (h2 : compCall (completionRequestOf cinput) = Except.error e2)
    (h3 : modelsCall () = Except.error e3) :
    OpenAIService.chat input chatCall
      = Except.error (JSThrown.errObj ("Failed to generate chat response: " ++ thrownMessage e1))
    ∧ OpenAIService.completion cinput compCall
      = Except.error (JSThrown.errObj ("Failed to generate completion: " ++ thrownMessage e2))
    ∧ OpenAIService.getModels modelsCall
      = Except.error (JSThrown.errObj ("Failed to fetch models: " ++ thrownMessage e3))
    ∧ (∀ m : String, thrownMessage (JSThrown.errObj m) = m)
    ∧ thrownMessage JSThrown.nonError = "Unknown error" := by
  refine ⟨?_, ?_, ?_, fun m => rfl, rfl⟩
  · simp [OpenAIService.chat, h1]
  · simp [OpenAIService.completion, h2]
  · simp [OpenAIService.getModels, h3]

/-- C5 (fixture): a chat call that throws a non-`Error` value. -/
def c5ChatCall : ProviderChatRequest → Except JSThrown ProviderChatResponse :=
  fun _ => Except.error JSThrown.nonError

/-- C5 (fixture): a completion call that throws `Error("boom")`. -/
def c5CompCall : ProviderCompletionRequest → Except JSThrown ProviderCompletionResponse :=
  fun _ => Except.error (JSThrown.errObj "boom")

/-- C5 (fixture): a models call that throws `Error("down")`. -/
def c5ModelsCall : Unit → Except JSThrown ProviderModelsResponse :=
  fun _ => Except.error (JSThrown.errObj "down")

/-- C5 (witness): the wrapping theorem at concrete failing calls — the
non-`Error` throw surfaces as "Unknown error" behind the chat prefix. -/
theorem provider_failures_wrapped_witness :
    OpenAIService.chat c1Input c5ChatCall
      = Except.error (JSThrown.errObj ("Failed to generate chat response: " ++ "Unknown error"))
    ∧ OpenAIService.completion c4Input c5CompCall
      = Except.error (JSThrown.errObj ("Failed to generate completion: " ++ "boom"))
    ∧ OpenAIService.getModels c5ModelsCall
      = Except.error (JSThrown.errObj ("Failed to fetch models: " ++ "down")) := by
  have h := provider_failures_wrapped c1Input c4Input JSThrown.nonError
    (JSThrown.errObj "boom") (JSThrown.errObj "down") c5ChatCall c5CompCall c5ModelsCall
    rfl rfl rfl
  exact ⟨h.1, h.2.1, h.2.2.1⟩

/-- C6: on every successful chat or completion call the result's usage is the
pure field rename of the provider's usage block when the provider reports
one, and is absent when the provider omits it. -/
theorem usage_mapping (input : ChatInput)
    (call : ProviderChatRequest → Except JSThrown ProviderChatResponse)
    (resp : ProviderChatResponse) (m : ProviderChatMessage)
    (cinput : CompletionInput)
    (ccall : ProviderCompletionRequest → Except JSThrown ProviderCompletionResponse)
    (cresp : ProviderCompletionResponse) (t : String)
    (h1 : call (chatRequestOf input) = Except.ok resp)
    (h2 : (resp.choices.head?).bind (fun c => c.message) = some m)
    (h3 : ccall (completionRequestOf cinput) = Except.ok cresp)
    (h4 : (cresp.choices.head?).bind (fun c => c.text) = some t) :
    (∃ r : ChatResponse, OpenAIService.chat input call = Except.ok r
      ∧ (∀ u, resp.usage = some u → r.usage = some (usageOf u))
      ∧ (resp.usage = none → r.usage = none))
    ∧ (∃ r : CompletionResponse, OpenAIService.completion cinput ccall = Except.ok r
      ∧ (∀ u, cresp.usage = some u → r.usage = some (usageOf u))
      ∧ (cresp.usage = none → r.usage = none)) := by
  constructor
  · refine ⟨{ message := { role := m.role, content := jsOrString m.content "" }
              model := resp.model
              usage := resp.usage.map (fun u =>
                { promptTokens := u.prompt_tokens
                  completionTokens := u.completion_tokens
                  totalTokens := u.total_tokens }) }, ?_, ?_, ?_⟩
    · simp [OpenAIService.chat, h1, h2]
    · intro u hu
      simp [hu, usageOf]
    · intro hn
      simp [hn]
  · refine ⟨{ text := t
              model := cresp.model
              usage := cresp.usage.map (fun u =>
                { promptTokens := u.prompt_tokens
                  completionTokens := u.completion_tokens
                  totalTokens := u.total_tokens }) }, ?_, ?_, ?_⟩
    · simp [OpenAIService.completion, h3, h4]
    · intro u hu
      simp [hu, usageOf]
    · intro hn
      simp [hn]

/-- C6 (fixture): a provider chat response with a message and a usage block
of 5 prompt, 3 completion, 8 total tokens. -/
def c6Resp : ProviderChatResponse :=
  { choices := [{ message := some { role := "assistant", content := some "Hi there" } }]
    model := "gpt-3.5-turbo"
    usage := some { prompt_tokens := 5, completion_tokens := 3, total_tokens := 8 } }

/-- C6 (fixture): a chat call answering with `c6Resp`. -/
def c6Call : ProviderChatRequest → Except JSThrown ProviderChatResponse :=
  fun _ => Except.ok c6Resp

/-- C6 (fixture): a provider completion response without a usage block. -/
def c6CompResp : ProviderCompletionResponse :=
  { choices := [{ text := some "done" }], model := "gpt-3.5-turbo-instruct", usage := none }

/-- C6 (fixture): a completion call answering with `c6CompResp`. -/
def c6CompCall : ProviderCompletionRequest → Except JSThrown ProviderCompletionResponse :=
  fun _ => Except.ok c6CompResp

/-- C6 (witness): the mapping theorem at a chat response reporting usage
(5, 3, 8) and a completion response omitting it. -/
theorem usage_mapping_witness :
    (∃ r : ChatResponse, OpenAIService.chat c1Input c6Call = Except.ok r
      ∧ r.usage = some (usageOf { prompt_tokens := 5, completion_tokens := 3, total_tokens := 8 }))
    ∧ (∃ r : CompletionResponse, OpenAIService.completion c4Input c6CompCall = Except.ok r
      ∧ r.usage = none) := by
  have h := usage_mapping c1Input c6Call c6Resp
    { role := "assistant", content := some "Hi there" }
    c4Input c6CompCall c6CompResp "done" rfl rfl rfl rfl
  obtain ⟨⟨r1, hr1, hu1, _⟩, ⟨r2, hr2, _, hn2⟩⟩ := h
  exact ⟨⟨r1, hr1, hu1 _ rfl⟩, ⟨r2, hr2, hn2 rfl⟩⟩

/-- C7: an OPTIONS request short-circuits to a 204 response with no body and
exactly the three CORS headers; the result is a fixed value — equal to the
handler's output under an environment with no credential at all and a
trivial GraphQL layer — so neither the adapter construction nor any resolver
takes part. -/
theorem options_preflight (req : HttpRequest) (env : Env)
    (yoga : YogaConfig → HttpRequest → HttpResponse)
    (h : req.method = "OPTIONS") :
    workerFetch req env yoga
      = { status := 204, body := HttpBody.nullBody, headers := corsHeaders }
    ∧ ("Access-Control-Allow-Origin", "*") ∈ (workerFetch req env yoga).headers
    ∧ ("Access-Control-Allow-Methods", "GET, POST, OPTIONS")
        ∈ (workerFetch req env yoga).headers
    ∧ ("Access-Control-Allow-Headers", "Content-Type, Authorization")
        ∈ (workerFetch req env yoga).headers
    ∧ workerFetch req env yoga
      = workerFetch req { OPENAI_API_KEY := none, ENVIRONMENT := none }
          (fun _ _ => { status := 0, body := HttpBody.nullBody, headers := [] }) := by
  have hw : workerFetch req env yoga
      = { status := 204, body := HttpBody.nullBody, headers := corsHeaders } := by
    simp [workerFetch, h]
  refine ⟨hw, ?_, ?_, ?_, ?_⟩
  · rw [hw]; simp [corsHeaders]
  · rw [hw]; simp [corsHeaders]
  · rw [hw]; simp [corsHeaders]
  · rw [hw]; simp [workerFetch, h]

/-- C7 (fixture): a preflight request. -/
def c7Req : HttpRequest := { method := "OPTIONS" }

/-- C7 (fixture): an environment with a missing credential. -/
def c7Env : Env := { OPENAI_API_KEY := none, ENVIRONMENT := none }

/-- C7 (fixture): an arbitrary GraphQL layer. -/
def c7Yoga : YogaConfig → HttpRequest → HttpResponse :=
  fun _ _ => { status := 200, body := HttpBody.fromYoga "data", headers := [] }

/-- C7 (witness): the preflight theorem at a concrete OPTIONS request with
the credential missing. -/
theorem options_preflight_witness :
    workerFetch c7Req c7Env c7Yoga
      = { status := 204, body := HttpBody.nullBody, headers := corsHeaders } :=
  (options_preflight c7Req c7Env c7Yoga rfl).1

/-- C8: on any non-preflight request with the credential unbound or empty,
adapter construction throws, and the handler answers 500 with the JSON error
object carrying the thrown message, the CORS headers still present after the
content type. -/
theorem construction_failure_returns_500 (req : HttpRequest) (env : Env)
    (yoga : YogaConfig → HttpRequest → HttpResponse)
    (hm : req.method ≠ "OPTIONS")
    (hkey : env.OPENAI_API_KEY = none ∨ env.OPENAI_API_KEY = some "") :
    workerFetch req env yoga
      = { status := 500
          body := HttpBody.jsonObject "Internal Server Error" "OPENAI_API_KEY is not configured"
          headers := ("Content-Type", "application/json") :: corsHeaders }
    ∧ ("Access-Control-Allow-Origin", "*") ∈ (workerFetch req env yoga).headers
    ∧ ("Access-Control-Allow-Methods", "GET, POST, OPTIONS")
        ∈ (workerFetch req env yoga).headers
    ∧ ("Access-Control-Allow-Headers", "Content-Type, Authorization")
        ∈ (workerFetch req env yoga).headers := by
  have hfal : jsFalsyString env.OPENAI_API_KEY = true := by
    rcases hkey with h | h <;> simp [jsFalsyString, h]
  have hw : workerFetch req env yoga
      = { status := 500
          body := HttpBody.jsonObject "Internal Server Error" "OPENAI_API_KEY is not configured"
          headers := ("Content-Type", "application/json") :: corsHeaders } := by
    simp [workerFetch, hm, createOpenAIService, hfal, thrownMessage]
  refine ⟨hw, ?_, ?_, ?_⟩ <;> rw [hw] <;> simp [corsHeaders]

/-- C8 (fixture): a POST request. -/
def c8Req : HttpRequest := { method := "POST" }

/-- C8 (fixture): an environment whose credential is the empty string. -/
def c8Env : Env := { OPENAI_API_KEY := some "", ENVIRONMENT := none }

/-- C8 (witness): the 500 theorem at a POST request with an empty
credential. -/
theorem construction_failure_returns_500_witness :
    workerFetch c8Req c8Env c7Yoga
      = { status := 500
          body := HttpBody.jsonObject "Internal Server Error" "OPENAI_API_KEY is not configured"
          headers := ("Content-Type", "application/json") :: corsHeaders } :=
  (construction_failure_returns_500 c8Req c8Env c7Yoga (by decide) (Or.inr rfl)).1

/-- C9: the health resolver returns the literal "OK" on every invocation; by
its very signature it receives neither a context nor a provider handle, so no
provider state can influence it and no network call can occur. -/
theorem health_always_ok : ∀ u : Unit, resolvers.Query.health u = "OK" :=
  fun _ => rfl

/-- C10 (counterexample): an environment whose ENVIRONMENT marker is present
as the empty string — neither "development" nor absent — still enables the
interactive console, because `!env.ENVIRONMENT` is true for the empty
string; the claimed "exactly when development or absent" biconditional fails
there. -/
theorem graphiql_enabled_on_empty_marker :
    graphiqlEnabled { OPENAI_API_KEY := some "k", ENVIRONMENT := some "" } = true
    ∧ (some "" : Option String) ≠ some "development"
    ∧ (some "" : Option String) ≠ none := by
  refine ⟨rfl, by decide, by decide⟩

/-- C10 (amended): the interactive console is enabled exactly when the
ENVIRONMENT marker is "development", absent, or present as the empty string
(the JavaScript-falsy markers); every other non-empty value disables it. -/
theorem graphiql_toggle (env : Env) :
    graphiqlEnabled env = true
      ↔ (env.ENVIRONMENT = some "development" ∨ env.ENVIRONMENT = none
          ∨ env.ENVIRONMENT = some "") := by
  rcases h : env.ENVIRONMENT with _ | s <;>
    simp [graphiqlEnabled, jsFalsyString, h]

end AgentWorks
